import Mathlib

/-!
Verification of the dataset-loading pipelines in `con_net/dataset/dataset2.py` and
`con_net/dataset/dataset_laionhuman_w_control.py`.

The embedding splits the code along its own seams:

* Geometry.  Every spatial operation (PIL `Image.resize`, torchvision `Resize`,
  `CenterCrop`, `TF.crop`) is modelled by its effect on the output size and on the
  map sending an output pixel coordinate to the source sampling location (a pair of
  rationals, using the PIL affine convention `src = (x + 1/2) * srcN / dstN - 1/2`).
  Per-pixel value operations (`ToTensor`, `Normalize([0.5],[0.5])`) do not move
  pixels and are not part of the geometric content.
* Control flow of the sample assemblers.  The still-image `__getitem__` methods are
  modelled as fuel-indexed recursions (`none` = the recursion did not terminate
  within the given fuel); external pixel-level collaborators (the torchvision
  `Compose` transform, the CLIP image processor, `cv2.Canny`, the HED detector, the
  text tokenizer) are recorded symbolically, so the record structure and the exact
  text handed to the tokenizer are visible.
* The video clip sampler's window arithmetic is modelled exactly (`np.linspace`
  with `dtype=int` as the floor of the exact rational interpolation).
-/

namespace AnimteCharacter

/-- Geometric content of an image/tensor in the pipeline: its size, and the map from
an output pixel coordinate to the sampling location in the original source image
(rational coordinates, PIL convention). -/
@[ext]
structure Geom where
  outW : Nat
  outH : Nat
  src : ℚ → ℚ → ℚ × ℚ

/-- A freshly opened source image of size w × h: the identity coordinate map. -/
def idGeom (w h : Nat) : Geom :=
  { outW := w, outH := h, src := fun x y => (x, y) }

/-- PIL `Image.resize((w, h))`: output size is exactly (w, h); an output pixel x
samples the source at `(x + 1/2) * srcW / w - 1/2` (PIL affine convention, shared
by bilinear and nearest kernels; only the interpolation kernel around that
location differs, which is value-level, not geometric). -/
def resizeExactGeom (w h : Nat) (g : Geom) : Geom :=
  { outW := w, outH := h,
    src := fun x y =>
      g.src ((x + 1/2) * (g.outW : ℚ) / (w : ℚ) - 1/2)
            ((y + 1/2) * (g.outH : ℚ) / (h : ℚ) - 1/2) }

/-- torchvision `Resize(s)` with an integer size: resize so the short side equals s,
the long side scaled to `int(s * long / short)` (Python int() truncation = Nat
division on the nonnegative values involved).  On an empty image the size
computation divides by zero and torchvision raises, modelled as `none`. -/
def resizeShortGeom (s : Nat) (g : Geom) : Option Geom :=
  if g.outW = 0 ∨ g.outH = 0 then none
  else if g.outW ≤ g.outH then
    some (resizeExactGeom s (s * g.outH / g.outW) g)
  else
    some (resizeExactGeom (s * g.outW / g.outH) s g)

/-- Python `int(round(n / 2.0))` for a natural n (round half to even, as in
torchvision `F.center_crop`'s `crop_top = int(round((image_height - crop_height) / 2.0))`). -/
def pyHalfRound (n : Nat) : Nat :=
  if n % 2 = 0 then n / 2
  else if (n / 2) % 2 = 0 then n / 2 else n / 2 + 1

/-- torchvision `CenterCrop(s)`: output is always exactly s × s; for an input at
least s × s the crop origin is `int(round((dim - s) / 2.0))`.  (The padding branch
taken when the input is smaller than s is not modelled; all theorems that evaluate
this definition keep the input at least s × s.) -/
def centerCropGeom (s : Nat) (g : Geom) : Geom :=
  { outW := s, outH := s,
    src := fun x y =>
      g.src (x + (pyHalfRound (g.outW - s) : ℚ)) (y + (pyHalfRound (g.outH - s) : ℚ)) }

/-- torchvision `RandomCrop.get_params(img, output_size=(th, tw))` on an image of
size w × h, with the two `torch.randint` draws supplied as r1 r2: raises
(`none`) if the image is smaller than the requested crop; returns `(0, 0, h, w)`
without consuming randomness when the sizes match exactly; otherwise samples the
origin uniformly, `i ∈ [0, h - th]`, `j ∈ [0, w - tw]`. -/
def getParams (w h th tw : Nat) (r1 r2 : Nat) : Option (Nat × Nat × Nat × Nat) :=
  if h < th ∨ w < tw then none
  else if w = tw ∧ h = th then some (0, 0, h, w)
  else some (r1 % (h - th + 1), r2 % (w - tw + 1), th, tw)

/-- `torchvision.transforms.functional.crop(img, top, left, height, width)`. -/
def cropGeom (top left hh ww : Nat) (g : Geom) : Geom :=
  { outW := ww, outH := hh,
    src := fun x y => g.src (x + (left : ℚ)) (y + (top : ℚ)) }

/-- Symbolic token tensor: records the exact text handed to
`self.tokenizer(prompt, max_length=..., padding="max_length", truncation=True)`.
The tokenizer itself is an external collaborator. -/
structure Tok where
  text : String
deriving DecidableEq

/-- Control images produced by the conditioning extractor of
`dataset_laionhuman_w_control.LaionHumanSD.__getitem__`, recorded symbolically:
the cv2.Canny(raw, 100, 200) three-channel pipeline, or the HED detector. -/
inductive CtrlImg where
  | cannyOf (raw : Nat)
  | hedOf (raw : Nat)
deriving DecidableEq

/-- Pixel tensors produced by external pixel-level collaborators, recorded
symbolically.  `lhcTransform raw k` is the k-th call of the w_control
`self.transform` (Resize + RandomCrop + ToTensor + Normalize) on the raw image in
one `__getitem__` body — the two calls (image, reference) consume independent
torch randomness, so they are distinct symbolic values. -/
inductive PixTensor where
  | laionTransform (raw : Nat)
  | clipPixels (raw : Nat)
  | lhcTransform (raw : Nat) (callNo : Nat)
  | lhcControl (c : CtrlImg)
deriving DecidableEq

/-- The conditional caption/image dropout block shared by both still-image
`LaionHumanSD.__getitem__` methods (dataset2.py lines 78-86,
dataset_laionhuman_w_control.py lines 100-108): one draw `r = random.random()`,
returns the possibly emptied prompt and the `drop_image_embed` flag. -/
def applyDropout (iDrop tDrop tiDrop r : ℚ) (prompt : String) : String × Nat :=
  if r < iDrop then (prompt, 1)
  else if r < iDrop + tDrop then ("", 0)
  else if r < iDrop + tDrop + tiDrop then ("", 1)
  else (prompt, 0)

namespace BaseDataset

/-- `BaseDataset.image_transform` (dataset2.py lines 148-158, identical in
dataset_laionhuman_w_control.py lines 172-182): Resize(512 short side), then
CenterCrop(512), then `RandomCrop.get_params(image, output_size=(512, 512))`
(draws r1 r2); the `TF.crop(image, i, j, h, w)` line is commented out in the
source, so the sampled parameters are returned but not applied.  ToTensor and
Normalize are value-level and leave the geometry unchanged.  Returns the
tensor's geometry and the sampled `(i, j, h, w)`. -/
def image_transform (g : Geom) (r1 r2 : Nat) : Option (Geom × Nat × Nat × Nat × Nat) :=
  (resizeShortGeom 512 g).bind fun g1 =>
    let g2 := centerCropGeom 512 g1
    (getParams g2.outW g2.outH 512 512 r1 r2).map fun p => (g2, p)

/-- `BaseDataset.reference_transform` (dataset2.py lines 160-170): Resize(512),
CenterCrop(512), ToTensor, Normalize; the get_params/crop lines are commented
out. -/
def reference_transform (g : Geom) : Option Geom :=
  (resizeShortGeom 512 g).map fun g1 => centerCropGeom 512 g1

/-- `BaseDataset.control_transform` (dataset2.py lines 172-177): takes the crop
parameters i j h w sampled by image_transform, but the `TF.crop` line is
commented out in the source, so they are unused; Resize(512), CenterCrop(512),
ToTensor (no Normalize). -/
def control_transform (g : Geom) (i j h w : Nat) : Option Geom :=
  (resizeShortGeom 512 g).map fun g1 => centerCropGeom 512 g1

/-- Exceptions that `BaseDataset.__getitem__` can raise (it has no try/except):
`NotImplementedError` from the control-type dispatch, `KeyError` from a missing
record key, and the errors raised inside torchvision transforms (ValueError /
ZeroDivisionError), which the claims never need to tell apart. -/
inductive PyErr where
  | notImplemented
  | keyError
  | transformError
deriving DecidableEq

/-- A source image on disk, as far as geometry is concerned: its size. -/
structure SrcImg where
  w : Nat
  h : Nat
deriving DecidableEq

/-- A JSONL record of the BaseDataset index after `Image.open`: the sizes of the
image, reference and (when the keys are present) canny/pose control images, and
the optional `prompt` field. -/
structure BItem where
  image : SrcImg
  reference : SrcImg
  canny : Option SrcImg
  pose : Option SrcImg
  prompt : Option String

/-- The record returned by `BaseDataset.__getitem__` (geometric content of the
tensors plus the symbolic token tensor). -/
structure BSample where
  image : Geom
  text_input_ids : Tok
  reference : Geom
  control_image : Geom

/-- The missing-caption fallback of `BaseDataset.__getitem__` (dataset2.py lines
191-194): `if 'prompt' not in item or item['prompt'] == '': prompt = 'best
quality,high quality' else: prompt = item['prompt']`. -/
def promptOf (item : BItem) : String :=
  match item.prompt with
  | none => "best quality,high quality"
  | some p => if p = "" then "best quality,high quality" else p

/-- `BaseDataset.__getitem__` (dataset2.py lines 179-229): open image and
reference, dispatch on `self.control_type` ('canny' / 'pose' / raise
NotImplementedError), fall back to 'best quality,high quality' when the prompt
key is absent or empty, floor both image dimensions to multiples of 8, resize
all three modalities to the floored size, then run the three transforms, the
control transform receiving the crop parameters sampled by image_transform. -/
def getitem (controlType : String) (item : BItem) (r1 r2 : Nat) : Except PyErr BSample :=
  let image := idGeom item.image.w item.image.h
  let reference := idGeom item.reference.w item.reference.h
  let controlE : Except PyErr Geom :=
    if controlType = "canny" then
      match item.canny with
      | some c => Except.ok (idGeom c.w c.h)
      | none => Except.error PyErr.keyError
    else if controlType = "pose" then
      match item.pose with
      | some c => Except.ok (idGeom c.w c.h)
      | none => Except.error PyErr.keyError
    else Except.error PyErr.notImplemented
  match controlE with
  | Except.error e => Except.error e
  | Except.ok control =>
    let prompt := promptOf item
    let width := item.image.w / 8 * 8
    let height := item.image.h / 8 * 8
    let image := resizeExactGeom width height image
    let reference := resizeExactGeom width height reference
    let control := resizeExactGeom width height control
    match image_transform image r1 r2 with
    | none => Except.error PyErr.transformError
    | some (imageT, i, j, hh, ww) =>
      match reference_transform reference, control_transform control i j hh ww with
      | some referenceT, some controlT =>
        Except.ok { image := imageT, text_input_ids := { text := prompt },
                    reference := referenceT, control_image := controlT }
      | _, _ => Except.error PyErr.transformError

end BaseDataset

/-- `(width // 8) * 8` — the flooring to a multiple of 8 applied to both
dimensions in `BaseDataset.__getitem__` before the resizes (dataset2.py lines
196-198). -/
def floorMult8 (n : Nat) : Nat := n / 8 * 8

/-! dataset2.py `LaionHumanSD` (lines 19-104). -/

/-- The data a still-image LaionHumanSD record yields once the try-block reads
succeed: the opened raw image (symbolic id) and the `prompt` field. -/
structure LaionItem where
  img : Nat
  prompt : String

/-- A `dataset2.LaionHumanSD` instance: dataset length, the outcome of the
sample-building phase per index (`none` = some exception inside the try block:
out-of-range index, file read, decode, missing prompt key, transform, CLIP
processor), and the three dropout rates. -/
structure LaionCfg where
  n : Nat
  build : Nat → Option LaionItem
  iDrop : ℚ
  tDrop : ℚ
  tiDrop : ℚ

/-- The record returned by `dataset2.LaionHumanSD.__getitem__`. -/
structure LaionSample where
  image : PixTensor
  text_input_ids : Tok
  clip_image : PixTensor
  drop_image_embed : Nat
deriving DecidableEq

/-- `dataset2.LaionHumanSD.__getitem__` (lines 67-101), fuel-indexed: any
exception inside the try block sends the call to `(idx + 1) % len(self.data)`;
on success the dropout block runs on one uniform draw r and the resulting
prompt is tokenized.  `none` means the recursion did not return within `fuel`
calls (the source recursion is unbounded). -/
def laionGetitem (cfg : LaionCfg) (r : ℚ) : Nat → Nat → Option LaionSample
  | 0, _ => none
  | fuel + 1, idx =>
    match cfg.build idx with
    | none => laionGetitem cfg r fuel ((idx + 1) % cfg.n)
    | some item =>
      let pd := applyDropout cfg.iDrop cfg.tDrop cfg.tiDrop r item.prompt
      some { image := PixTensor.laionTransform item.img,
             text_input_ids := { text := pd.1 },
             clip_image := PixTensor.clipPixels item.img,
             drop_image_embed := pd.2 }

/-! dataset_laionhuman_w_control.py `LaionHumanSD` (lines 21-128). -/

/-- The data a w_control LaionHumanSD record yields once `data[idx]`,
`Image.open` and `item["prompt"]` succeed. -/
structure LHCItem where
  img : Nat
  prompt : String

/-- A `dataset_laionhuman_w_control.LaionHumanSD` instance. -/
structure LHCCfg where
  n : Nat
  build : Nat → Option LHCItem
  useControl : Bool
  controlType : String
  iDrop : ℚ
  tDrop : ℚ
  tiDrop : ℚ

/-- The record returned by `dataset_laionhuman_w_control.LaionHumanSD.__getitem__`;
`control_image` starts as Python `None` and stays `none` unless `use_control`. -/
structure LHCSample where
  image : PixTensor
  text_input_ids : Tok
  reference : PixTensor
  drop_image_embed : Nat
  control_image : Option PixTensor
deriving DecidableEq

/-- The control branch of the w_control `__getitem__` try block (lines 85-95):
`control_image = None`; if `use_control`, build the canny or hed control image
and apply `self.control_transform` to it — for any other control type the
variable is still `None` when `control_transform(None)` runs, and torchvision
raises a TypeError (`none` here, caught by the surrounding except). -/
def lhcTryControl (cfg : LHCCfg) (raw : Nat) : Option (Option PixTensor) :=
  if cfg.useControl then
    if cfg.controlType = "canny" then
      some (some (PixTensor.lhcControl (CtrlImg.cannyOf raw)))
    else if cfg.controlType = "hed" then
      some (some (PixTensor.lhcControl (CtrlImg.hedOf raw)))
    else none
  else some none

/-- `dataset_laionhuman_w_control.LaionHumanSD.__getitem__` (lines 77-125),
fuel-indexed: the try block opens the image, reads the prompt, applies
`self.transform` twice (image, reference) and runs the control branch; any
exception inside it sends the call to `(idx + 1) % len(self.data)`; on success
the dropout block runs and the record is assembled. -/
def lhcGetitem (cfg : LHCCfg) (r : ℚ) : Nat → Nat → Option LHCSample
  | 0, _ => none
  | fuel + 1, idx =>
    match cfg.build idx with
    | none => lhcGetitem cfg r fuel ((idx + 1) % cfg.n)
    | some item =>
      match lhcTryControl cfg item.img with
      | none => lhcGetitem cfg r fuel ((idx + 1) % cfg.n)
      | some ctrl =>
        let pd := applyDropout cfg.iDrop cfg.tDrop cfg.tiDrop r item.prompt
        some { image := PixTensor.lhcTransform item.img 0,
               text_input_ids := { text := pd.1 },
               reference := PixTensor.lhcTransform item.img 1,
               drop_image_embed := pd.2,
               control_image := ctrl }

/-- Geometric content of the w_control `LaionHumanSD`'s `self.transform`
(dataset_laionhuman_w_control.py lines 41-46):
`Compose([Resize(self.size, BILINEAR), RandomCrop(self.size), ToTensor(),
Normalize([0.5], [0.5])])` with `self.size = (512, 512)`.  `Resize` with an
explicit (512, 512) pair is an exact resize to 512 × 512; `RandomCrop` then
samples `get_params(img, (512, 512))` (torch draws r1 r2) and applies
`TF.crop` at the sampled position; ToTensor/Normalize are value-level.
`lhcGetitem` records applications of this transform symbolically
(`PixTensor.lhcTransform`); this definition is the geometry of those tensors.
Returns the geometry together with the sampled crop position; `none` models
the `get_params` raise (impossible after the exact resize). -/
def lhcTransformGeom (g : Geom) (r1 r2 : Nat) : Option (Geom × Nat × Nat × Nat × Nat) :=
  let g1 := resizeExactGeom 512 512 g
  match getParams g1.outW g1.outH 512 512 r1 r2 with
  | none => none
  | some (i, j, ch, cw) => some (cropGeom i j ch cw g1, i, j, ch, cw)

/-- Geometric content of the w_control `LaionHumanSD.control_transform`
(dataset_laionhuman_w_control.py lines 71-75): `Resize(self.size, BILINEAR)`
with the explicit (512, 512) pair, then `CenterCrop(self.size)`, then
ToTensor.  Its input is the control image derived from the raw image:
`cv2.Canny(raw, 100, 200)` is pixel-wise (output has exactly the raw image's
size and an identity coordinate map), and the HED detector's contract likewise
hands back an RGB-shaped map ready for this resize. -/
def lhcControlTransformGeom (g : Geom) : Geom :=
  centerCropGeom 512 (resizeExactGeom 512 512 g)

namespace BaseVideoDataset

/-- `clip_length = min(video_length, (self.sample_n_frames - 1) * self.sample_stride + 1)`
(dataset_laionhuman_w_control.py line 326). -/
def clip_length (videoLength nFrames stride : Nat) : Nat :=
  min videoLength ((nFrames - 1) * stride + 1)

/-- `start_idx = random.randint(0, video_length - clip_length)` (line 327):
Python randint is inclusive on both ends; the draw r is reduced into the range. -/
def start_idx (videoLength clipLen r : Nat) : Nat :=
  r % (videoLength - clipLen + 1)

/-- `batch_index = np.linspace(start_idx, start_idx + clip_length - 1,
self.sample_n_frames, dtype=int)` (line 328): nFrames evenly spaced values over
the closed window, cast to int.  Modelled as the floor of the exact rational
interpolation `start + k * (clipLen - 1) / (nFrames - 1)`, which for integer
start equals `start + k * (clipLen - 1) / (nFrames - 1)` in Nat division;
numpy's float64 rounding is not modelled.  For nFrames = 1 numpy returns
`[start]`, which the formula also gives (Nat division by zero is zero). -/
def batch_index (start clipLen nFrames : Nat) : List Nat :=
  (List.range nFrames).map fun k => start + k * (clipLen - 1) / (nFrames - 1)

end BaseVideoDataset

/-! Concrete instances used to exhibit counterexamples. -/

/-- A one-record w_control dataset constructed with `use_control=True` and the
unsupported `control_type='pose'`; every build step succeeds. -/
def cfgC6 : LHCCfg :=
  { n := 1, build := fun _ => some { img := 0, prompt := "p" },
    useControl := true, controlType := "pose",
    iDrop := 1/20, tDrop := 1/20, tiDrop := 1/20 }

/-- A one-record dataset2 LaionHumanSD whose record has `prompt = ""`. -/
def cfgC7 : LaionCfg :=
  { n := 1, build := fun _ => some { img := 0, prompt := "" },
    iDrop := 1/20, tDrop := 1/20, tiDrop := 1/20 }

/-- A concrete BaseDataset record: 517 × 700 image, 100 × 200 reference,
300 × 400 canny control image, prompt present. -/
def itemC5 : BaseDataset.BItem :=
  { image := { w := 517, h := 700 }, reference := { w := 100, h := 200 },
    canny := some { w := 300, h := 400 }, pose := none, prompt := some "hi" }

/-- A two-record dataset2 LaionHumanSD where index 0 fails to build (corrupt
file) and index 1 succeeds. -/
def cfgC3a : LaionCfg :=
  { n := 2,
    build := fun i => if i = 1 then some { img := 7, prompt := "ok" } else none,
    iDrop := 1/20, tDrop := 1/20, tiDrop := 1/20 }

/-- A two-record w_control LaionHumanSD where index 0 fails to build and index 1
succeeds, without control. -/
def cfgC3b : LHCCfg :=
  { n := 2,
    build := fun i => if i = 1 then some { img := 7, prompt := "ok" } else none,
    useControl := false, controlType := "canny",
    iDrop := 1/20, tDrop := 1/20, tiDrop := 1/20 }

/-- A one-record w_control LaionHumanSD constructed with `use_control=False`. -/
def cfgC10 : LHCCfg :=
  { n := 1, build := fun _ => some { img := 5, prompt := "hello" },
    useControl := false, controlType := "canny",
    iDrop := 1/20, tDrop := 1/20, tiDrop := 1/20 }

/-! Theorems. -/

/-- On a nonempty input, Resize(512) + CenterCrop(512) produces an exactly
512 × 512 image, `get_params` therefore takes its equal-size branch and returns
the constant `(0, 0, 512, 512)`, and all three BaseDataset transforms produce
the same geometry. -/
theorem transforms_eval (g : Geom) (r1 r2 a b c d : Nat)
    (hw : 1 ≤ g.outW) (hh : 1 ≤ g.outH) :
    ∃ g1, resizeShortGeom 512 g = some g1 ∧
      BaseDataset.image_transform g r1 r2 = some (centerCropGeom 512 g1, 0, 0, 512, 512) ∧
      BaseDataset.reference_transform g = some (centerCropGeom 512 g1) ∧
      BaseDataset.control_transform g a b c d = some (centerCropGeom 512 g1) := by
  have h0 : ¬(g.outW = 0 ∨ g.outH = 0) := by omega
  by_cases hle : g.outW ≤ g.outH
  · refine ⟨resizeExactGeom 512 (512 * g.outH / g.outW) g, ?_, ?_, ?_, ?_⟩ <;>
      simp [resizeShortGeom, h0, hle, BaseDataset.image_transform,
        BaseDataset.reference_transform, BaseDataset.control_transform,
        centerCropGeom, getParams]
  · refine ⟨resizeExactGeom (512 * g.outW / g.outH) 512 g, ?_, ?_, ?_, ?_⟩ <;>
      simp [resizeShortGeom, h0, hle, BaseDataset.image_transform,
        BaseDataset.reference_transform, BaseDataset.control_transform,
        centerCropGeom, getParams]

/-- Cropping a 512 × 512 geometry at `(top, left, h, w) = (0, 0, 512, 512)` is
the identity transform. -/
theorem cropGeom_id (g : Geom) (hw : g.outW = 512) (hh : g.outH = 512) :
    cropGeom 0 0 512 512 g = g := by
  obtain ⟨W, H, f⟩ := g
  simp only [cropGeom] at *
  subst hw hh
  congr 1
  funext x y
  norm_num

/-- C8: for every image whose height and width are each at least the requested
output size, the crop parameters sampled by `RandomCrop.get_params` satisfy
`top ≥ 0`, `left ≥ 0`, `top + h ≤ image_height` and `left + w ≤ image_width`,
for every random draw. -/
theorem c8_crop_params_in_bounds (w h th tw r1 r2 : Nat)
    (hw : tw ≤ w) (hh : th ≤ h) :
    ∃ i j ch cw, getParams w h th tw r1 r2 = some (i, j, ch, cw) ∧
      0 ≤ i ∧ 0 ≤ j ∧ i + ch ≤ h ∧ j + cw ≤ w := by
  have h0 : ¬(h < th ∨ w < tw) := by omega
  by_cases heq : w = tw ∧ h = th
  · exact ⟨0, 0, h, w, by simp [getParams, h0, heq], Nat.zero_le _, Nat.zero_le _,
      by omega, by omega⟩
  · refine ⟨r1 % (h - th + 1), r2 % (w - tw + 1), th, tw,
      by simp [getParams, h0, heq], Nat.zero_le _, Nat.zero_le _, ?_, ?_⟩
    · have := Nat.mod_lt r1 (y := h - th + 1) (by omega)
      omega
    · have := Nat.mod_lt r2 (y := w - tw + 1) (by omega)
      omega

/-- C8 witness: a 640 × 480 image with the 512 × 512 requested crop. -/
theorem c8_crop_params_in_bounds_witness :
    512 ≤ 640 ∧ 512 ≤ 480 + 32 ∧
      ∃ i j ch cw, getParams 640 (480 + 32) 512 512 3 7 = some (i, j, ch, cw) ∧
        0 ≤ i ∧ 0 ≤ j ∧ i + ch ≤ 480 + 32 ∧ j + cw ≤ 640 :=
  ⟨by decide, by decide, c8_crop_params_in_bounds 640 (480 + 32) 512 512 3 7
    (by decide) (by decide)⟩

/-- C9: in `BaseDataset.image_transform` the crop parameters are sampled only
after the image has been resized and center-cropped to exactly 512 × 512, so
for every (nonempty) input image and every pair of random draws the returned
tuple is the constant `(0, 0, 512, 512)`; in particular two runs on the same or
different inputs return identical crop parameters. -/
theorem c9_params_constant (g g' : Geom) (r1 r2 r1' r2' : Nat)
    (hw : 1 ≤ g.outW) (hh : 1 ≤ g.outH) (hw' : 1 ≤ g'.outW) (hh' : 1 ≤ g'.outH) :
    (∃ t, BaseDataset.image_transform g r1 r2 = some (t, 0, 0, 512, 512)) ∧
    (∃ t, BaseDataset.image_transform g' r1' r2' = some (t, 0, 0, 512, 512)) := by
  obtain ⟨g1, -, h1, -, -⟩ := transforms_eval g r1 r2 0 0 0 0 hw hh
  obtain ⟨g1', -, h1', -, -⟩ := transforms_eval g' r1' r2' 0 0 0 0 hw' hh'
  exact ⟨⟨centerCropGeom 512 g1, h1⟩, ⟨centerCropGeom 512 g1', h1'⟩⟩

/-- C9 witness: a 640 × 480 image and a 1000 × 2000 image, with different random
draws, both yield crop parameters `(0, 0, 512, 512)`. -/
theorem c9_params_constant_witness :
    1 ≤ (idGeom 640 480).outW ∧ 1 ≤ (idGeom 640 480).outH ∧
    1 ≤ (idGeom 1000 2000).outW ∧ 1 ≤ (idGeom 1000 2000).outH ∧
    ((∃ t, BaseDataset.image_transform (idGeom 640 480) 3 7 = some (t, 0, 0, 512, 512)) ∧
     (∃ t, BaseDataset.image_transform (idGeom 1000 2000) 11 13 = some (t, 0, 0, 512, 512))) :=
  ⟨by decide, by decide, by decide, by decide,
    c9_params_constant (idGeom 640 480) (idGeom 1000 2000) 3 7 11 13
      (by decide) (by decide) (by decide) (by decide)⟩

/-- C4: the conditional dropout block partitions the draw r against the rates:
`r < i_drop` keeps the prompt and sets `drop_image_embed = 1`;
`i_drop ≤ r < i_drop + t_drop` empties the prompt and keeps the flag 0;
`i_drop + t_drop ≤ r < i_drop + t_drop + ti_drop` empties the prompt and sets
the flag to 1; `i_drop + t_drop + ti_drop ≤ r` keeps both unchanged. -/
theorem c4_dropout_partition (i t ti r : ℚ) (p : String)
    (ht : 0 ≤ t) (hti : 0 ≤ ti) :
    (r < i → applyDropout i t ti r p = (p, 1)) ∧
    (i ≤ r → r < i + t → applyDropout i t ti r p = ("", 0)) ∧
    (i + t ≤ r → r < i + t + ti → applyDropout i t ti r p = ("", 1)) ∧
    (i + t + ti ≤ r → applyDropout i t ti r p = (p, 0)) := by
  refine ⟨fun h1 => ?_, fun h1 h2 => ?_, fun h1 h2 => ?_, fun h1 => ?_⟩ <;>
    unfold applyDropout
  · rw [if_pos h1]
  · rw [if_neg (by linarith), if_pos h2]
  · rw [if_neg (by linarith), if_neg (by linarith), if_pos h2]
  · rw [if_neg (by linarith), if_neg (by linarith), if_neg (by linarith)]

/-- C4 witness: the spec's example — rates 0.05 each; a draw of 0.03 keeps the
prompt and sets the flag, 0.07 empties the prompt, 0.99 keeps both. -/
theorem c4_dropout_partition_witness :
    applyDropout (1/20) (1/20) (1/20) (3/100) "a photo" = ("a photo", 1) ∧
    applyDropout (1/20) (1/20) (1/20) (7/100) "a photo" = ("", 0) ∧
    applyDropout (1/20) (1/20) (1/20) (99/100) "a photo" = ("a photo", 0) :=
  ⟨(c4_dropout_partition (1/20) (1/20) (1/20) (3/100) "a photo"
      (by norm_num) (by norm_num)).1 (by norm_num),
   (c4_dropout_partition (1/20) (1/20) (1/20) (7/100) "a photo"
      (by norm_num) (by norm_num)).2.1 (by norm_num) (by norm_num),
   (c4_dropout_partition (1/20) (1/20) (1/20) (99/100) "a photo"
      (by norm_num) (by norm_num)).2.2.2 (by norm_num)⟩

/-- C1: for every sample of either still-image dataset, the image, reference
and control tensors share one geometry g — the map from any output pixel
coordinate to the source sampling location is the same function for all three,
which is pixel alignment — and the sampled crop position is the single
constant `(0, 0, 512, 512)`, applied identically to all modalities.
BaseDataset part (source of size w × h, dimensions at least 8 so the floored
resize target is nonempty): all three modalities pass through the floored
resize, Resize(512), CenterCrop(512); the parameters sampled by
image_transform are `(0, 0, 512, 512)` and `TF.crop` at those parameters is
the identity, so the three geometries are equal and each equals the result of
applying the one sampled crop to it.
w_control part (raw source of size wc × hc): `self.transform` —
called once for the image with draws (ra1, ra2) and once for the reference
with independent draws (rb1, rb2) — resizes exactly to (512, 512), so
RandomCrop's sampled position is `(0, 0, 512, 512)` for every draw and both
calls produce the same geometry; the control image (pixel-wise in the raw
image, so with the raw image's geometry) goes through control_transform —
the same exact resize, then CenterCrop — yielding that same geometry again. -/
theorem c1_aligned_transform (w h r1 r2 wc hc ra1 ra2 rb1 rb2 : Nat)
    (hw : 8 ≤ w) (hh : 8 ≤ h) (hwc : 1 ≤ wc) (hhc : 1 ≤ hc) :
    (∃ g : Geom,
      BaseDataset.image_transform
          (resizeExactGeom (w / 8 * 8) (h / 8 * 8) (idGeom w h)) r1 r2
        = some (g, 0, 0, 512, 512) ∧
      BaseDataset.reference_transform
          (resizeExactGeom (w / 8 * 8) (h / 8 * 8) (idGeom w h)) = some g ∧
      BaseDataset.control_transform
          (resizeExactGeom (w / 8 * 8) (h / 8 * 8) (idGeom w h)) 0 0 512 512 = some g ∧
      cropGeom 0 0 512 512 g = g) ∧
    (∃ g : Geom,
      lhcTransformGeom (idGeom wc hc) ra1 ra2 = some (g, 0, 0, 512, 512) ∧
      lhcTransformGeom (idGeom wc hc) rb1 rb2 = some (g, 0, 0, 512, 512) ∧
      lhcControlTransformGeom (idGeom wc hc) = g) := by
  constructor
  · have hw8 : 1 ≤ w / 8 * 8 := by
      have : 1 ≤ w / 8 := Nat.one_le_div_iff (by norm_num) |>.mpr hw
      omega
    have hh8 : 1 ≤ h / 8 * 8 := by
      have : 1 ≤ h / 8 := Nat.one_le_div_iff (by norm_num) |>.mpr hh
      omega
    obtain ⟨g1, -, h1, h2, h3⟩ :=
      transforms_eval (resizeExactGeom (w / 8 * 8) (h / 8 * 8) (idGeom w h))
        r1 r2 0 0 512 512 hw8 hh8
    exact ⟨centerCropGeom 512 g1, h1, h2, h3, cropGeom_id _ rfl rfl⟩
  · refine ⟨cropGeom 0 0 512 512 (resizeExactGeom 512 512 (idGeom wc hc)), ?_, ?_, ?_⟩ <;>
      simp [lhcTransformGeom, lhcControlTransformGeom, getParams, centerCropGeom,
        cropGeom, pyHalfRound, resizeExactGeom, idGeom]

/-- C1 witness: a 517 × 700 source image through the BaseDataset pipeline and a
640 × 480 raw image through the w_control pipelines, with distinct draws. -/
theorem c1_aligned_transform_witness :
    8 ≤ 517 ∧ 8 ≤ 700 ∧ 1 ≤ 640 ∧ 1 ≤ 480 ∧
    ((∃ g : Geom,
      BaseDataset.image_transform
          (resizeExactGeom (517 / 8 * 8) (700 / 8 * 8) (idGeom 517 700)) 3 7
        = some (g, 0, 0, 512, 512) ∧
      BaseDataset.reference_transform
          (resizeExactGeom (517 / 8 * 8) (700 / 8 * 8) (idGeom 517 700)) = some g ∧
      BaseDataset.control_transform
          (resizeExactGeom (517 / 8 * 8) (700 / 8 * 8) (idGeom 517 700)) 0 0 512 512
        = some g ∧
      cropGeom 0 0 512 512 g = g) ∧
    (∃ g : Geom,
      lhcTransformGeom (idGeom 640 480) 3 7 = some (g, 0, 0, 512, 512) ∧
      lhcTransformGeom (idGeom 640 480) 11 13 = some (g, 0, 0, 512, 512) ∧
      lhcControlTransformGeom (idGeom 640 480) = g)) :=
  ⟨by decide, by decide, by decide, by decide,
    c1_aligned_transform 517 700 3 7 640 480 3 7 11 13
      (by decide) (by decide) (by decide) (by decide)⟩

/-- C5: `BaseDataset.__getitem__` floors both dimensions of the loaded image to
multiples of 8 with `(w // 8) * 8` and uses the floored sizes as the target of
the very first resize of every modality (shown here for a sample that reaches
the returned record: the tensors in the record are exactly the transform
pipelines applied to `resizeExactGeom (floorMult8 w) (floorMult8 h)` of each
source); and `floorMult8 517 = 512`, `floorMult8 512 = 512`, `floorMult8 7 = 0`. -/
theorem c5_floor_to_multiple_of_8 (item : BaseDataset.BItem) (r1 r2 : Nat)
    (c : BaseDataset.SrcImg) (hc : item.canny = some c)
    (hw : 8 ≤ item.image.w) (hh : 8 ≤ item.image.h) :
    (∃ s, BaseDataset.getitem "canny" item r1 r2 = Except.ok s ∧
      (∃ p, BaseDataset.image_transform
          (resizeExactGeom (floorMult8 item.image.w) (floorMult8 item.image.h)
            (idGeom item.image.w item.image.h)) r1 r2 = some (s.image, p)) ∧
      BaseDataset.reference_transform
          (resizeExactGeom (floorMult8 item.image.w) (floorMult8 item.image.h)
            (idGeom item.reference.w item.reference.h)) = some s.reference ∧
      BaseDataset.control_transform
          (resizeExactGeom (floorMult8 item.image.w) (floorMult8 item.image.h)
            (idGeom c.w c.h)) 0 0 512 512 = some s.control_image) ∧
    floorMult8 517 = 512 ∧ floorMult8 512 = 512 ∧ floorMult8 7 = 0 := by
  have hw8 : 1 ≤ item.image.w / 8 * 8 := by
    have : 1 ≤ item.image.w / 8 := Nat.one_le_div_iff (by norm_num) |>.mpr hw
    omega
  have hh8 : 1 ≤ item.image.h / 8 * 8 := by
    have : 1 ≤ item.image.h / 8 := Nat.one_le_div_iff (by norm_num) |>.mpr hh
    omega
  refine ⟨?_, by decide, by decide, by decide⟩
  obtain ⟨gI, hrI, hI, -, -⟩ :=
    transforms_eval
      (resizeExactGeom (item.image.w / 8 * 8) (item.image.h / 8 * 8)
        (idGeom item.image.w item.image.h)) r1 r2 0 0 512 512 hw8 hh8
  obtain ⟨gR, hrR, -, hR, -⟩ :=
    transforms_eval
      (resizeExactGeom (item.image.w / 8 * 8) (item.image.h / 8 * 8)
        (idGeom item.reference.w item.reference.h)) r1 r2 0 0 512 512 hw8 hh8
  obtain ⟨gC, hrC, -, -, hC⟩ :=
    transforms_eval
      (resizeExactGeom (item.image.w / 8 * 8) (item.image.h / 8 * 8)
        (idGeom c.w c.h)) r1 r2 0 0 512 512 hw8 hh8
  refine ⟨{ image := centerCropGeom 512 gI,
            text_input_ids := { text := BaseDataset.promptOf item },
            reference := centerCropGeom 512 gR, control_image := centerCropGeom 512 gC }, ?_,
          ⟨(0, 0, 512, 512), hI⟩, hR, hC⟩
  simp [BaseDataset.getitem, hc, hI, hR, hC]

/-- C5 witness: a record with a 517 × 700 image: the flooring evaluations hold
and fetching the sample succeeds. -/
theorem c5_floor_to_multiple_of_8_witness :
    floorMult8 517 = 512 ∧ floorMult8 512 = 512 ∧ floorMult8 7 = 0 ∧
    ∃ s, BaseDataset.getitem "canny" itemC5 3 7 = Except.ok s := by
  have h := c5_floor_to_multiple_of_8 itemC5 3 7 { w := 300, h := 400 }
    rfl (by decide) (by decide)
  exact ⟨h.2.1, h.2.2.1, h.2.2.2, h.1.choose, h.1.choose_spec.1⟩

/-- C3: in both still-image LaionHumanSD `__getitem__` methods, any exception
inside the sample-building try block at index idx makes the call return the
result of the call at `(idx + 1) % n` (with one unit of fuel consumed — the
source recursion is unbounded); and when every index fails, the recursion never
returns for any amount of fuel, so no exception from the building phase is ever
surfaced to the caller. -/
theorem c3_retry_next_index (cfg : LaionCfg) (cfg2 : LHCCfg) (r r2 : ℚ)
    (f f2 idx idx2 : Nat)
    (h1 : cfg.build idx = none)
    (h2 : cfg2.build idx2 = none ∨
      ∃ it, cfg2.build idx2 = some it ∧ lhcTryControl cfg2 it.img = none) :
    laionGetitem cfg r (f + 1) idx = laionGetitem cfg r f ((idx + 1) % cfg.n) ∧
    lhcGetitem cfg2 r2 (f2 + 1) idx2 = lhcGetitem cfg2 r2 f2 ((idx2 + 1) % cfg2.n) ∧
    ((∀ i, cfg.build i = none) → ∀ fuel i, laionGetitem cfg r fuel i = none) := by
  refine ⟨by simp [laionGetitem, h1], ?_, ?_⟩
  · rcases h2 with h2 | ⟨it, hit, hctrl⟩
    · simp [lhcGetitem, h2]
    · simp [lhcGetitem, hit, hctrl]
  · intro hall fuel
    induction fuel with
    | zero => intro i; simp [laionGetitem]
    | succ f ih => intro i; simp [laionGetitem, hall i]; exact ih _

/-- C3 witness: a two-record dataset whose index 0 is corrupt; fetching index 0
returns what fetching index 1 returns. -/
theorem c3_retry_next_index_witness :
    cfgC3a.build 0 = none ∧
    laionGetitem cfgC3a (1/2) 4 0 = laionGetitem cfgC3a (1/2) 3 ((0 + 1) % cfgC3a.n) ∧
    lhcGetitem cfgC3b (1/2) 4 0 = lhcGetitem cfgC3b (1/2) 3 ((0 + 1) % cfgC3b.n) := by
  have h := c3_retry_next_index cfgC3a cfgC3b (1/2) (1/2) 3 3 0 0 rfl (Or.inl rfl)
  exact ⟨rfl, h.1, h.2.1⟩

/-- C6 counterexample: the control-enabled LaionHumanSD variant constructed with
`use_control=True` and the unsupported `control_type='pose'` does not raise a
not-implemented signal to the caller: the failure happens inside the per-sample
try block, the handler retries the next index, so fetching a sample never
returns at all (here: the call at fuel 6 just becomes the call at fuel 5, and
no fuel suffices to produce a record — contradicting a fail-fast propagating
NotImplementedError). -/
theorem c6_counterexample :
    lhcGetitem cfgC6 (1/2) 6 0 = lhcGetitem cfgC6 (1/2) 5 0 ∧
    lhcGetitem cfgC6 (1/2) 6 0 = none := by
  exact ⟨rfl, rfl⟩

/-- C6 (amended): `BaseDataset.__getitem__` with a control type other than
'canny'/'pose' does fail fast with NotImplementedError for every sample; but
the control-enabled LaionHumanSD variant with `use_control=True` and a control
type other than 'canny'/'hed' raises no not-implemented signal — the failure
(control_transform applied to None) is swallowed by the try/except, every
attempt retries the next index, and the fetch never returns for any fuel. -/
theorem c6_unsupported_control_type (ct : String) (item : BaseDataset.BItem)
    (r1 r2 : Nat) (cfg : LHCCfg) (r : ℚ)
    (hc : ct ≠ "canny") (hp : ct ≠ "pose")
    (hu : cfg.useControl = true) (h1 : cfg.controlType ≠ "canny")
    (h2 : cfg.controlType ≠ "hed") :
    BaseDataset.getitem ct item r1 r2 = Except.error BaseDataset.PyErr.notImplemented ∧
    ∀ fuel idx, lhcGetitem cfg r fuel idx = none := by
  constructor
  · simp [BaseDataset.getitem, hc, hp]
  · intro fuel
    induction fuel with
    | zero => intro idx; simp [lhcGetitem]
    | succ f ih =>
      intro idx
      cases hb : cfg.build idx with
      | none => simp [lhcGetitem, hb]; exact ih _
      | some it =>
        have hctrl : lhcTryControl cfg it.img = none := by
          simp [lhcTryControl, hu, h1, h2]
        simp [lhcGetitem, hb, hctrl]; exact ih _

/-- C6 amended witness: control type 'depth' on BaseDataset raises
NotImplementedError; `cfgC6` ('pose', use_control=True) never returns. -/
theorem c6_unsupported_control_type_witness :
    BaseDataset.getitem "depth" itemC5 3 7 = Except.error BaseDataset.PyErr.notImplemented ∧
    lhcGetitem cfgC6 (1/2) 9 0 = none := by
  have h := c6_unsupported_control_type "depth" itemC5 3 7 cfgC6 (1/2)
    (by decide) (by decide) (by decide) (by decide) (by decide)
  exact ⟨h.1, h.2 9 0⟩

/-- C7 counterexample: `dataset2.LaionHumanSD` is a still-image dataset, and a
record with `prompt = ""` fetched through its `__getitem__` (with a keep-both
dropout draw) hands the tokenizer the empty string, not the fixed fallback
'best quality,high quality'. -/
theorem c7_counterexample :
    (laionGetitem cfgC7 (1/2) 1 0).map (fun s => s.text_input_ids.text) = some "" ∧
    "" ≠ "best quality,high quality" := by
  constructor
  · have hdrop : applyDropout cfgC7.iDrop cfgC7.tDrop cfgC7.tiDrop (1/2) "" = ("", 0) := by
      unfold applyDropout cfgC7
      rw [if_neg (by norm_num), if_neg (by norm_num), if_neg (by norm_num)]
    simp [laionGetitem, cfgC7, applyDropout] at hdrop ⊢
    rw [if_neg (by norm_num), if_neg (by norm_num), if_neg (by norm_num)]
  · decide

/-- C7 (amended): the fallback is a `BaseDataset.__getitem__` behavior only:
there, a record whose prompt key is absent or empty tokenizes
'best quality,high quality' and a non-empty prompt is tokenized unchanged;
the still-image LaionHumanSD datasets apply no fallback — a successfully built
record's raw prompt (empty or not) goes through dropout unchanged, so with a
keep-both draw the raw prompt itself is tokenized. -/
theorem c7_caption_fallback (ct : String) (item : BaseDataset.BItem)
    (r1 r2 : Nat) (s : BaseDataset.BSample) (cfg : LaionCfg) (r : ℚ)
    (f idx : Nat) (it : LaionItem)
    (hok : BaseDataset.getitem ct item r1 r2 = Except.ok s)
    (hb : cfg.build idx = some it)
    (ht : 0 ≤ cfg.tDrop) (hti : 0 ≤ cfg.tiDrop)
    (hkeep : cfg.iDrop + cfg.tDrop + cfg.tiDrop ≤ r) :
    ((item.prompt = none ∨ item.prompt = some "") →
      s.text_input_ids = { text := "best quality,high quality" }) ∧
    (∀ p, item.prompt = some p → p ≠ "" → s.text_input_ids = { text := p }) ∧
    (laionGetitem cfg r (f + 1) idx).map (fun o => o.text_input_ids) =
      some { text := it.prompt } := by
  have hs : s.text_input_ids = { text := BaseDataset.promptOf item } := by
    simp only [BaseDataset.getitem] at hok
    repeat' split at hok
    all_goals first
      | (cases hok; rfl)
      | simp at hok
  refine ⟨?_, ?_, ?_⟩
  · rintro (hp | hp) <;> rw [hs] <;> simp [BaseDataset.promptOf, hp]
  · intro p hp hne
    rw [hs]
    simp [BaseDataset.promptOf, hp, hne]
  · have hdrop : applyDropout cfg.iDrop cfg.tDrop cfg.tiDrop r it.prompt =
        (it.prompt, 0) := by
      unfold applyDropout
      rw [if_neg (by linarith), if_neg (by linarith), if_neg (by linarith)]
    simp [laionGetitem, hb, hdrop]

/-- C10: fetching from the control-enabled LaionHumanSD variant constructed with
`use_control=False` returns, for a successfully built record, a record whose
`control_image` is None while image, reference, token tensor and the dropout
flag are all populated normally. -/
theorem c10_use_control_false (cfg : LHCCfg) (r : ℚ) (fuel idx : Nat)
    (item : LHCItem) (hu : cfg.useControl = false)
    (hb : cfg.build idx = some item) :
    lhcGetitem cfg r (fuel + 1) idx =
      some { image := PixTensor.lhcTransform item.img 0,
             text_input_ids :=
               { text := (applyDropout cfg.iDrop cfg.tDrop cfg.tiDrop r item.prompt).1 },
             reference := PixTensor.lhcTransform item.img 1,
             drop_image_embed := (applyDropout cfg.iDrop cfg.tDrop cfg.tiDrop r item.prompt).2,
             control_image := none } := by
  simp [lhcGetitem, hb, lhcTryControl, hu]

/-- C10 witness: the concrete `use_control=False` dataset yields a record with
`control_image = none` and the other fields populated. -/
theorem c10_use_control_false_witness :
    lhcGetitem cfgC10 (1/2) 1 0 =
      some { image := PixTensor.lhcTransform 5 0,
             text_input_ids := { text := "hello" },
             reference := PixTensor.lhcTransform 5 1,
             drop_image_embed := 0,
             control_image := none } := by
  have hdrop : applyDropout cfgC10.iDrop cfgC10.tDrop cfgC10.tiDrop (1/2) "hello" =
      ("hello", 0) := by
    unfold applyDropout cfgC10
    rw [if_neg (by norm_num), if_neg (by norm_num), if_neg (by norm_num)]
  have h := c10_use_control_false cfgC10 (1/2) 0 0 { img := 5, prompt := "hello" } rfl rfl
  rw [h]
  have h1 := congrArg Prod.fst hdrop
  have h2 := congrArg Prod.snd hdrop
  rw [one_div] at h1 h2
  simp [h1, h2]

/-- C7 amended witness: itemC5 has the non-empty prompt 'hi', which BaseDataset
tokenizes unchanged; the dataset2 LaionHumanSD record at index 1 of cfgC3a has
prompt 'ok', tokenized as-is under a keep-both draw. -/
theorem c7_caption_fallback_witness :
    ∃ s, BaseDataset.getitem "canny" itemC5 3 7 = Except.ok s ∧
      s.text_input_ids = { text := "hi" } ∧
      (laionGetitem cfgC3a (1/2) (0 + 1) 1).map (fun o => o.text_input_ids) =
        some { text := "ok" } := by
  obtain ⟨s, hs⟩ : ∃ s, BaseDataset.getitem "canny" itemC5 3 7 = Except.ok s := ⟨_, rfl⟩
  have h := c7_caption_fallback "canny" itemC5 3 7 s cfgC3a (1/2) 0 1
    { img := 7, prompt := "ok" } hs rfl (by norm_num [cfgC3a]) (by norm_num [cfgC3a])
    (by norm_num [cfgC3a])
  exact ⟨s, hs, h.2.1 "hi" rfl (by decide), h.2.2⟩

/-- C2: the video clip sampler computes
`clip_length = min(video_length, (sample_n_frames - 1) * sample_stride + 1)`,
draws `start_idx` from exactly the integer range
`[0, video_length - clip_length]` (every draw lands in it, every value of it is
attainable), and `batch_index` has exactly `sample_n_frames` entries,
monotonically non-decreasing, with first entry `start_idx` and last entry
`start_idx + clip_length - 1`. -/
theorem c2_video_clip_sampler (vl n stride r : Nat) (hv : 1 ≤ vl) (hn : 1 ≤ n) :
    BaseVideoDataset.clip_length vl n stride = min vl ((n - 1) * stride + 1) ∧
    BaseVideoDataset.start_idx vl (BaseVideoDataset.clip_length vl n stride) r
      ≤ vl - BaseVideoDataset.clip_length vl n stride ∧
    (∀ s, s ≤ vl - BaseVideoDataset.clip_length vl n stride →
      ∃ r0, BaseVideoDataset.start_idx vl (BaseVideoDataset.clip_length vl n stride) r0 = s) ∧
    ∀ st cl, cl = BaseVideoDataset.clip_length vl n stride →
      (BaseVideoDataset.batch_index st cl n).length = n ∧
      (BaseVideoDataset.batch_index st cl n).Pairwise (· ≤ ·) ∧
      (BaseVideoDataset.batch_index st cl n).head? = some st ∧
      (BaseVideoDataset.batch_index st cl n).getLast? = some (st + (cl - 1)) := by
  refine ⟨rfl, ?_, ?_, ?_⟩
  · have := Nat.mod_lt r
      (y := vl - BaseVideoDataset.clip_length vl n stride + 1) (by omega)
    unfold BaseVideoDataset.start_idx
    omega
  · intro s hsle
    exact ⟨s, Nat.mod_eq_of_lt (by omega)⟩
  · intro st cl hcl
    have hcl1 : 1 ≤ cl := by
      rw [hcl]
      unfold BaseVideoDataset.clip_length
      omega
    refine ⟨by simp [BaseVideoDataset.batch_index], ?_, ?_, ?_⟩
    · unfold BaseVideoDataset.batch_index
      refine (List.pairwise_le_range n).map _ (fun a b hab => ?_)
      have : a * (cl - 1) / (n - 1) ≤ b * (cl - 1) / (n - 1) :=
        Nat.div_le_div_right (Nat.mul_le_mul_right _ hab)
      omega
    · obtain ⟨m, rfl⟩ : ∃ m, n = m + 1 := ⟨n - 1, by omega⟩
      simp [BaseVideoDataset.batch_index, List.range_succ_eq_map]
    · obtain ⟨m, rfl⟩ : ∃ m, n = m + 1 := ⟨n - 1, by omega⟩
      unfold BaseVideoDataset.batch_index
      rw [List.range_succ, List.map_append, List.map_singleton, List.getLast?_concat]
      rcases Nat.eq_zero_or_pos m with hm | hm
      · subst hm
        have : cl = 1 := by
          rw [hcl]
          unfold BaseVideoDataset.clip_length
          omega
        simp [this]
      · have : m * (cl - 1) / (m + 1 - 1) = cl - 1 := by
          simp only [Nat.add_sub_cancel]
          exact Nat.mul_div_cancel_left _ hm
        rw [this]

/-- C2 witness: the spec's example, `video_length=100, sample_n_frames=24,
sample_stride=4` with draw 55: `clip_length = 93`, `start_idx ≤ 7`, 24 indices,
first `start_idx`, last `start_idx + 92`. -/
theorem c2_video_clip_sampler_witness :
    BaseVideoDataset.clip_length 100 24 4 = 93 ∧
    BaseVideoDataset.start_idx 100 93 55 ≤ 7 ∧
    (BaseVideoDataset.batch_index (BaseVideoDataset.start_idx 100 93 55) 93 24).length = 24 ∧
    (BaseVideoDataset.batch_index (BaseVideoDataset.start_idx 100 93 55) 93 24).head?
      = some (BaseVideoDataset.start_idx 100 93 55) ∧
    (BaseVideoDataset.batch_index (BaseVideoDataset.start_idx 100 93 55) 93 24).getLast?
      = some (BaseVideoDataset.start_idx 100 93 55 + 92) := by
  have h := c2_video_clip_sampler 100 24 4 55 (by decide) (by decide)
  have hb := h.2.2.2 (BaseVideoDataset.start_idx 100 93 55) 93 rfl
  exact ⟨by decide, h.2.1, hb.1, hb.2.2.1, hb.2.2.2⟩

end AnimteCharacter
